import Mathlib

/-!
Shallow embedding of `src/ssh_utils.py` (class `SSHClient`).

The repository is a thin wrapper around the external `paramiko` SSH
library.  We embed the wrapper's own code faithfully, statement by
statement, and treat every call into `paramiko` as an external event
whose outcome is supplied by an environment value: the environment says
whether `paramiko.SSHClient.connect` succeeds or which exception class
it raises, whether `RSAKey.from_private_key_file` raises, what
`exec_command` produces, and whether `client.close` raises.  Each
operation returns, besides the successor state, the list of log lines
the wrapper emitted (mirroring the exact f-string texts of the source)
and the list of external library calls it issued, so that claims about
logging and about which network primitives run are statable.

Python-specific semantics that matter here are modelled exactly:
truthiness of `self.password` / `self.key_path` (an empty string is
falsy), and the fact that `a and b and c` returns the last evaluated
operand rather than a `Bool`, which is why `is_connected` returns a
`PyRet` value that can be `pyNone`.

Modelling of the external library's failure behavior: a freshly
constructed `paramiko.SSHClient()` has no transport.  A `connect` call
on it assigns the transport before key exchange and authentication and
performs no cleanup when it raises, so the transport state a failed
connect leaves on the client object depends on how far it got: a
wrong-password failure leaves an assigned, active transport, a
key-exchange failure an assigned dead one, an early socket failure
none.  The environment therefore supplies that left-over transport
state (`failTransport`) alongside the outcome; on success the client
holds an active transport.  The paths that never reach the underlying
connect (the configuration `ValueError`, a key-file load failure)
leave the transport genuinely unset.
-/

namespace SSHUtils

/-- Python exception classes that the wrapper's `except` clauses
distinguish: `AuthenticationException`, `SSHException`, `ValueError`
(raised by the wrapper itself) and any other `Exception`. -/
inductive PyError where
  | authenticationException : PyError
  | sshException : String → PyError
  | valueError : String → PyError
  | otherError : String → PyError
deriving DecidableEq, Repr

/-- A value returned by a Python expression that is either `None` or a
`bool` — needed because `a and b and c` can return `None`. -/
inductive PyRet where
  | pyNone : PyRet
  | pyBool : Bool → PyRet
deriving DecidableEq, Repr

/-- A line sent to the logging sink, with its level. -/
inductive LogEntry where
  | info : String → LogEntry
  | warning : String → LogEntry
  | error : String → LogEntry
deriving DecidableEq, Repr

/-- The transport object of a paramiko client, as far as the wrapper
observes it: only `is_active()` is ever queried. -/
structure PTransport where
  active : Bool
deriving DecidableEq, Repr

/-- The paramiko `SSHClient` object stored in `self.client`: an
optional transport, and whether `set_missing_host_key_policy
(AutoAddPolicy())` has been applied to it. -/
structure PClient where
  transport : Option PTransport
  auto_add_policy : Bool
deriving DecidableEq, Repr

/-- The wrapper object: the constructor's stored configuration plus the
mutable `self.client` field (`None` at construction). -/
structure SSHClient where
  host : String
  user : String
  password : Option String
  key_path : Option String
  port : Nat
  client : Option PClient
deriving DecidableEq, Repr

/-- External library calls the wrapper issues, with the arguments it
passes (in particular the fixed connect timeout of 10 seconds). -/
inductive ExtCall where
  | newSSHClient : ExtCall
  | setMissingHostKeyPolicyAutoAdd : ExtCall
  | connectWithPassword : String → String → String → Nat → Nat → ExtCall
  | loadPrivateKey : String → ExtCall
  | connectWithKey : String → String → String → Nat → Nat → ExtCall
  | pexec : String → Nat → ExtCall
  | pclose : ExtCall
deriving DecidableEq, Repr

/-- Outcome of a `paramiko.SSHClient.connect(...)` call, chosen by the
environment. -/
inductive ConnOutcome where
  | ok : ConnOutcome
  | authErr : ConnOutcome
  | sshErr : String → ConnOutcome
  | otherErr : String → ConnOutcome
deriving DecidableEq, Repr

/-- Environment for one `connect()` call of the wrapper: the outcome of
the underlying `paramiko` connect, whether
`RSAKey.from_private_key_file` raises (`none` = it returns a key), and
the transport state a failing `paramiko` connect leaves assigned on the
client object (paramiko assigns `self._transport` before
authenticating and does no cleanup on failure: `some` active after a
wrong-password `AuthenticationException`, `some` dead after a
key-exchange failure, `none` when the failure precedes the transport
assignment). -/
structure ConnectEnv where
  pconnect : ConnOutcome
  keyLoad : Option PyError
  failTransport : Option PTransport
deriving DecidableEq, Repr

/-- Python truthiness of an optional string attribute: `None` and the
empty string are falsy (`if self.password:`). -/
def pyTruthy : Option String → Bool
  | none => false
  | some s => !s.isEmpty

/-- Truthiness of `self.client is not None and
self.client.get_transport() and self.client.get_transport().is_active()`,
the guard used by `connect` and (negated) by `execute_command`. -/
def activeGuard : Option PClient → Bool
  | none => false
  | some c =>
    match c.transport with
    | none => false
    | some t => t.active

/-- Result of a wrapper `connect()` call: successor state, the raised
exception if any (`none` = normal return), log lines, external calls. -/
structure ConnectRes where
  state : SSHClient
  error : Option PyError
  logs : List LogEntry
  calls : List ExtCall
deriving DecidableEq, Repr

/-- The log line each `except` clause of `connect` emits, following the
source's handler order (`AuthenticationException`, then `SSHException`,
then `Exception`; `ValueError` falls into the last). -/
def connectErrorLog (host : String) : PyError → LogEntry
  | .authenticationException =>
      .error ("Authentication failed for " ++ host ++ ". Check credentials or key file.")
  | .sshException m =>
      .error ("SSH error while connecting to " ++ host ++ ": " ++ m)
  | .valueError m =>
      .error ("Unexpected error while connecting to " ++ host ++ ": " ++ m)
  | .otherError m =>
      .error ("Unexpected error while connecting to " ++ host ++ ": " ++ m)

/-- Exception raised by a failing `paramiko` connect outcome. -/
def outcomeError : ConnOutcome → Option PyError
  | .ok => none
  | .authErr => some .authenticationException
  | .sshErr m => some (.sshException m)
  | .otherErr m => some (.otherError m)

/-- The message of the wrapper's own configuration `ValueError`. -/
def missingCredMsg : String :=
  "Either password or key_path must be provided for SSH connection."

/-- A freshly constructed `paramiko.SSHClient()` after
`set_missing_host_key_policy(AutoAddPolicy())`: no transport yet. -/
def freshClient : PClient := { transport := none, auto_add_policy := true }

/-- `SSHClient.connect` of `src/ssh_utils.py`.  If the guard sees an
active session it logs and returns; otherwise `self.client` is replaced
by a fresh paramiko client (this assignment happens before any network
call, so it persists when a later step raises), the auto-add host-key
policy is set, and authentication runs with the password if truthy,
else with the key file if truthy, else the configuration `ValueError`
is raised; every exception is logged and re-raised.  When the
underlying connect fails, the stored client keeps the transport state
(`env.failTransport`) that paramiko left assigned on it; when the
failure precedes the underlying connect (`ValueError`, key-file load),
the stored client has no transport. -/
def connect (env : ConnectEnv) (self : SSHClient) : ConnectRes :=
  if activeGuard self.client then
    { state := self
      error := none
      logs := [.info ("Already connected to " ++ self.host ++ ". Reusing the connection.")]
      calls := [] }
  else
    let baseCalls : List ExtCall := [.newSSHClient, .setMissingHostKeyPolicyAutoAdd]
    if pyTruthy self.password then
      let calls := baseCalls ++
        [.connectWithPassword self.host self.user (self.password.getD "") self.port 10]
      match outcomeError env.pconnect with
      | none =>
        { state := { self with client := some { freshClient with transport := some { active := true } } }
          error := none
          logs := [.info ("Successfully connected to " ++ self.host ++ " on port " ++ toString self.port)]
          calls := calls }
      | some e =>
        { state := { self with client := some { freshClient with transport := env.failTransport } }
          error := some e
          logs := [connectErrorLog self.host e]
          calls := calls }
    else if pyTruthy self.key_path then
      match env.keyLoad with
      | some e =>
        { state := { self with client := some freshClient }
          error := some e
          logs := [connectErrorLog self.host e]
          calls := baseCalls ++ [.loadPrivateKey (self.key_path.getD "")] }
      | none =>
        let calls := baseCalls ++
          [.loadPrivateKey (self.key_path.getD ""),
           .connectWithKey self.host self.user (self.key_path.getD "") self.port 10]
        match outcomeError env.pconnect with
        | none =>
          { state := { self with client := some { freshClient with transport := some { active := true } } }
            error := none
            logs := [.info ("Successfully connected to " ++ self.host ++ " on port " ++ toString self.port)]
            calls := calls }
        | some e =>
          { state := { self with client := some { freshClient with transport := env.failTransport } }
            error := some e
            logs := [connectErrorLog self.host e]
            calls := calls }
    else
      { state := { self with client := some freshClient }
        error := some (.valueError missingCredMsg)
        logs := [connectErrorLog self.host (.valueError missingCredMsg)]
        calls := baseCalls }

/-- Result of `close()`: it has no error channel because the method
catches every exception of the underlying close — it never raises. -/
structure CloseRes where
  state : SSHClient
  logs : List LogEntry
  calls : List ExtCall
deriving DecidableEq, Repr

/-- `SSHClient.close` of `src/ssh_utils.py`.  `closeErr` is the
environment: `some m` means the underlying `client.close()` raised an
exception with text `m` (caught and logged); the `finally` clause sets
`self.client = None` in every case. -/
def close (closeErr : Option String) (self : SSHClient) : CloseRes :=
  match self.client with
  | none => { state := self, logs := [], calls := [] }
  | some _ =>
    match closeErr with
    | none =>
      { state := { self with client := none }
        logs := [.info ("SSH connection closed for " ++ self.host)]
        calls := [.pclose] }
    | some m =>
      { state := { self with client := none }
        logs := [.error ("Error while closing SSH connection to " ++ self.host ++ ": " ++ m)]
        calls := [.pclose] }

/-- `SSHClient.is_connected` of `src/ssh_utils.py`.  The source returns
the Python expression `self.client is not None and
self.client.get_transport() and self.client.get_transport().is_active()`
whose value is the boolean `False` when `self.client` is `None`, the
value `None` (not a boolean) when a client exists without a transport,
and the boolean `is_active()` otherwise. -/
def is_connected (self : SSHClient) : PyRet :=
  match self.client with
  | none => .pyBool false
  | some c =>
    match c.transport with
    | none => .pyNone
    | some t => .pyBool t.active

/-- `True` on the characters Python's `str.strip()` removes. -/
def isPyWs (c : Char) : Bool :=
  c == ' ' || c == '\t' || c == '\n' || c == '\r' ||
  c == Char.ofNat 11 || c == Char.ofNat 12

/-- Python `str.strip()`: drop whitespace from both ends. -/
def pyStrip (s : String) : String :=
  String.mk (((s.toList.dropWhile isPyWs).reverse.dropWhile isPyWs).reverse)

/-- Outcome of one `exec_command` attempt on the channel, chosen by the
environment: the command completed with decoded (un-stripped) stdout,
stderr and exit status, or an `SSHException` was raised, or some other
`Exception` was raised. -/
inductive ExecOutcome where
  | completed : String → String → Int → ExecOutcome
  | sshErr : String → ExecOutcome
  | otherErr : String → ExecOutcome
deriving DecidableEq, Repr

/-- Environment for one recursion level of `execute_command`: the
environment of the implicit `connect()` (used only when no active
session exists), the attempt outcome, whether the underlying close
raises during recovery, and the environment of the recovery
`connect()`. -/
structure CallEnv where
  implicitConnect : ConnectEnv
  exec : ExecOutcome
  closeErr : Option String
  recoverConnect : ConnectEnv
deriving DecidableEq, Repr

/-- Result of `execute_command`: successor state, either the returned
`(output, error, exit_status)` triple or the raised exception, and the
accumulated logs and external calls of every recursion level. -/
structure ExecRes where
  state : SSHClient
  result : Except PyError (String × String × Int)
  logs : List LogEntry
  calls : List ExtCall
deriving Repr

/-- `SSHClient.execute_command` of `src/ssh_utils.py`.  The source
recurses on itself with no depth bound; `fuel` bounds the recursion in
the model and `none` means the source would still be recursing after
`fuel` levels.  `env n` supplies the external outcomes of recursion
level `n`.  The structure mirrors the source line by line: implicit
`self.connect()` when the guard is falsy (a failure there propagates,
it is outside the `try`); then the attempt; a completed command returns
the stripped triple whatever the exit status, logging info on zero and
a warning otherwise; an `SSHException` is logged and re-raised; any
other exception is logged, then `self.close()`, `self.connect()` (a
failure of this connect propagates out of the handler), and the value
of the recursive call with the same command and timeout is returned. -/
def execute_command : Nat → (Nat → CallEnv) → SSHClient → String → Nat → Option ExecRes
  | 0, _, _, _, _ => none
  | fuel + 1, env, self, command, timeout =>
    let pre : ConnectRes :=
      if activeGuard self.client then
        { state := self, error := none, logs := [], calls := [] }
      else connect (env 0).implicitConnect self
    match pre.error with
    | some e =>
      some { state := pre.state, result := .error e, logs := pre.logs, calls := pre.calls }
    | none =>
      match (env 0).exec with
      | .completed rawOut rawErr exit_status =>
        let lg :=
          if exit_status = 0 then
            [LogEntry.info ("Command executed successfully on " ++ pre.state.host ++ ": " ++ command)]
          else
            [LogEntry.warning ("Command execution failed on " ++ pre.state.host ++
              " with exit status " ++ toString exit_status)]
        some { state := pre.state
               result := .ok (pyStrip rawOut, pyStrip rawErr, exit_status)
               logs := pre.logs ++ lg
               calls := pre.calls ++ [.pexec command timeout] }
      | .sshErr m =>
        some { state := pre.state
               result := .error (.sshException m)
               logs := pre.logs ++
                 [.error ("SSH error while executing command on " ++ pre.state.host ++ ": " ++ m)]
               calls := pre.calls ++ [.pexec command timeout] }
      | .otherErr m =>
        let lg := pre.logs ++
          [LogEntry.error ("Error executing command on " ++ pre.state.host ++ ": " ++ m)]
        let cs := pre.calls ++ [ExtCall.pexec command timeout]
        let cl := close (env 0).closeErr pre.state
        let rc := connect (env 0).recoverConnect cl.state
        match rc.error with
        | some e2 =>
          some { state := rc.state, result := .error e2
                 logs := lg ++ cl.logs ++ rc.logs, calls := cs ++ cl.calls ++ rc.calls }
        | none =>
          match execute_command fuel (fun n => env (n + 1)) rc.state command timeout with
          | none => none
          | some r =>
            some { state := r.state, result := r.result
                   logs := lg ++ cl.logs ++ rc.logs ++ r.logs
                   calls := cs ++ cl.calls ++ rc.calls ++ r.calls }

/-- An environment in which every connect succeeds and every command
attempt raises a non-SSH exception: the persistent-failure scenario of
the spec's §7. -/
def persistentFailureEnv : Nat → CallEnv := fun _ =>
  { implicitConnect := { pconnect := .ok, keyLoad := none, failTransport := none }
    exec := .otherErr "Connection reset by peer"
    closeErr := none
    recoverConnect := { pconnect := .ok, keyLoad := none, failTransport := none } }

/-! ### Helper lemmas -/

theorem connect_state_config (env : ConnectEnv) (s : SSHClient) :
    (connect env s).state.host = s.host ∧
    (connect env s).state.user = s.user ∧
    (connect env s).state.password = s.password ∧
    (connect env s).state.key_path = s.key_path ∧
    (connect env s).state.port = s.port := by
  refine ⟨?_, ?_, ?_, ?_, ?_⟩ <;> (unfold connect; repeat' split) <;> rfl

theorem connect_ok_password (kl : Option PyError) (ft : Option PTransport) (s : SSHClient)
    (hg : activeGuard s.client = false) (hp : pyTruthy s.password = true) :
    connect ⟨.ok, kl, ft⟩ s =
      { state := { s with client := some { transport := some { active := true }, auto_add_policy := true } }
        error := none
        logs := [.info ("Successfully connected to " ++ s.host ++ " on port " ++ toString s.port)]
        calls := [.newSSHClient, .setMissingHostKeyPolicyAutoAdd,
          .connectWithPassword s.host s.user (s.password.getD "") s.port 10] } := by
  unfold connect
  rw [hg, hp]
  rfl

theorem activeGuard_fresh_active :
    activeGuard (some { transport := some { active := true }, auto_add_policy := true }) = true := rfl

theorem persistentFailureEnv_shift :
    (fun n => persistentFailureEnv (n + 1)) = persistentFailureEnv := rfl

/-! ### Claim theorems -/

/-- C4: `connect()` is idempotent with respect to an active session:
when the stored session exists and its transport is active, a further
`connect()` call logs one info line, returns no error, leaves the state
unchanged, and issues no external call at all. -/
theorem connect_idempotent_on_active_session (env : ConnectEnv) (self : SSHClient)
    (h : activeGuard self.client = true) :
    connect env self =
      { state := self
        error := none
        logs := [.info ("Already connected to " ++ self.host ++ ". Reusing the connection.")]
        calls := [] } := by
  unfold connect
  rw [h]
  rfl

/-- Witness for C4 at a concrete connected handle. -/
theorem connect_idempotent_on_active_session_witness :
    activeGuard (SSHClient.mk "h" "u" (some "p") none 22
        (some { transport := some { active := true }, auto_add_policy := true })).client = true ∧
    connect ⟨.ok, none, none⟩ (SSHClient.mk "h" "u" (some "p") none 22
        (some { transport := some { active := true }, auto_add_policy := true })) =
      { state := SSHClient.mk "h" "u" (some "p") none 22
          (some { transport := some { active := true }, auto_add_policy := true })
        error := none
        logs := [.info ("Already connected to h. Reusing the connection.")]
        calls := [] } :=
  ⟨rfl, connect_idempotent_on_active_session ⟨.ok, none, none⟩ _ rfl⟩

/-- C5: `close()` never raises (its result type has no error channel
because every exception of the underlying close is caught), and in
every state — close failure, already-closed or never-connected handle
included — the stored session handle is cleared, so `is_connected()` is
the boolean `False` afterwards; when a session exists the underlying
close is attempted and a success or failure line is logged. -/
theorem close_never_raises_and_clears (closeErr : Option String) (self : SSHClient) :
    (close closeErr self).state.client = none ∧
    is_connected (close closeErr self).state = .pyBool false ∧
    (self.client = none → close closeErr self = { state := self, logs := [], calls := [] }) ∧
    (self.client ≠ none → (close closeErr self).calls = [.pclose] ∧
      (close closeErr self).logs ≠ []) := by
  cases hc : self.client with
  | none =>
    have h1 : close closeErr self = { state := self, logs := [], calls := [] } := by
      unfold close; rw [hc]
    exact ⟨by rw [h1]; exact hc, by rw [h1]; unfold is_connected; rw [hc],
      fun _ => h1, fun h => absurd rfl h⟩
  | some c =>
    have h1 : (close closeErr self).state = { self with client := none } ∧
        (close closeErr self).calls = [.pclose] ∧ (close closeErr self).logs ≠ [] := by
      unfold close; rw [hc]; cases closeErr <;> exact ⟨rfl, rfl, by simp⟩
    exact ⟨by rw [h1.1], by rw [h1.1]; rfl,
      fun h => Option.noConfusion h, fun _ => ⟨h1.2.1, h1.2.2⟩⟩

/-- Witness for C5 at a concrete connected handle. -/
theorem close_never_raises_and_clears_witness :
    (close (some "broken pipe") (SSHClient.mk "h" "u" (some "p") none 22
        (some { transport := some { active := true }, auto_add_policy := true }))).state.client = none ∧
    is_connected (close (some "broken pipe") (SSHClient.mk "h" "u" (some "p") none 22
        (some { transport := some { active := true }, auto_add_policy := true }))).state = .pyBool false := by
  have h := close_never_raises_and_clears (some "broken pipe") (SSHClient.mk "h" "u" (some "p") none 22
    (some { transport := some { active := true }, auto_add_policy := true }))
  exact ⟨h.1, h.2.1⟩

/-- C9 (code bug): the source's docstring promises `True if connected,
False otherwise`, but in the reachable state where a client object is
stored and `get_transport()` is `None` — exactly the state a failed
`connect()` leaves behind, here the one with neither credential set —
`is_connected()` returns Python's `None`, which is not a boolean. -/
theorem is_connected_returns_pyNone_on_transportless_client :
    is_connected (SSHClient.mk "h" "u" none none 22
      (some { transport := none, auto_add_policy := true })) = .pyNone ∧
    PyRet.pyNone ≠ PyRet.pyBool false ∧
    (connect ⟨.ok, none, none⟩ (SSHClient.mk "h" "u" none none 22 none)).state =
      SSHClient.mk "h" "u" none none 22 (some { transport := none, auto_add_policy := true }) ∧
    (connect ⟨.ok, none, none⟩ (SSHClient.mk "h" "u" none none 22 none)).error.isSome = true :=
  ⟨rfl, by decide, rfl, rfl⟩

theorem connect_error_cases (env : ConnectEnv) (self : SSHClient) :
    (connect env self).error = none ∨
    ∃ e c, (connect env self).error = some e ∧
      (connect env self).state.client = some c ∧
      c.auto_add_policy = true ∧
      (connect env self).logs = [connectErrorLog self.host e] := by
  unfold connect
  repeat' split
  all_goals first
    | exact Or.inl rfl
    | exact Or.inr ⟨_, _, rfl, rfl, rfl, rfl⟩

/-- C2 counterexample: a configuration with both `password` and
`key_path` set does not fail with a configuration error — `connect()`
takes the password branch and returns normally when the underlying
connect succeeds. -/
theorem connect_both_credentials_no_config_error :
    pyTruthy (SSHClient.mk "h" "u" (some "p") (some "/k") 22 none).password = true ∧
    pyTruthy (SSHClient.mk "h" "u" (some "p") (some "/k") 22 none).key_path = true ∧
    (connect ⟨.ok, none, none⟩ (SSHClient.mk "h" "u" (some "p") (some "/k") 22 none)).error = none := by
  refine ⟨by decide, by decide, rfl⟩

/-- C2 amended: `connect()` on a handle without an active session fails
with the configuration `ValueError` when neither of {password,
key_path} is truthy; but when a password is set, no configuration error
is ever raised (with both credentials set, the password branch is
taken, cf. C10). -/
theorem connect_missing_credentials_config_error (env : ConnectEnv) (self : SSHClient) :
    (pyTruthy self.password = false → pyTruthy self.key_path = false →
      activeGuard self.client = false →
      (connect env self).error = some (.valueError missingCredMsg)) ∧
    (pyTruthy self.password = true →
      ∀ m, (connect env self).error ≠ some (PyError.valueError m)) := by
  constructor
  · intro hp hk hg
    unfold connect
    rw [hg, hp, hk]
    rfl
  · intro hp m
    cases hg : activeGuard self.client with
    | true =>
      unfold connect
      rw [hg]
      simp
    | false =>
      unfold connect
      rw [hg, hp]
      cases env.pconnect <;> simp [outcomeError]

/-- Witness for C2's amended theorem: a credential-less configuration
fails with the `ValueError`, and a both-credentials configuration never
raises a configuration error even when authentication fails. -/
theorem connect_missing_credentials_config_error_witness :
    (connect ⟨.ok, none, none⟩ (SSHClient.mk "h" "u" none none 22 none)).error =
      some (.valueError missingCredMsg) ∧
    (connect ⟨.authErr, none, none⟩ (SSHClient.mk "h" "u" (some "p") (some "/k") 22 none)).error ≠
      some (PyError.valueError "boom") :=
  ⟨(connect_missing_credentials_config_error ⟨.ok, none, none⟩ (SSHClient.mk "h" "u" none none 22 none)).1 rfl rfl rfl,
   (connect_missing_credentials_config_error ⟨.authErr, none, none⟩
     (SSHClient.mk "h" "u" (some "p") (some "/k") 22 none)).2 rfl "boom"⟩

/-- C3 counterexample: two concrete failing `connect()` calls refute
the claim.  First, on the configuration-error path (no underlying
connect attempted, so the embedding is exact there) the call raises but
the stored session handle does not remain unset — the source assigned
`self.client = paramiko.SSHClient()` before raising and no handler
resets it.  Second, `connect()` with a wrong password raises
`AuthenticationException` after paramiko has already assigned an
active transport to the stored client (paramiko assigns
`self._transport` before authenticating and does no cleanup on
failure), so `is_connected()` afterwards is `True`, not false. -/
theorem connect_failure_leaves_client_set :
    ((connect ⟨.ok, none, none⟩ (SSHClient.mk "h" "u" none none 22 none)).error.isSome = true ∧
     (connect ⟨.ok, none, none⟩ (SSHClient.mk "h" "u" none none 22 none)).state.client ≠ none) ∧
    ((connect ⟨.authErr, none, some { active := true }⟩
        (SSHClient.mk "h" "u" (some "p") none 22 none)).error =
      some .authenticationException ∧
     is_connected (connect ⟨.authErr, none, some { active := true }⟩
        (SSHClient.mk "h" "u" (some "p") none 22 none)).state = .pyBool true ∧
     PyRet.pyBool true ≠ PyRet.pyBool false) := by
  refine ⟨⟨rfl, ?_⟩, rfl, rfl, ?_⟩ <;> decide

/-- C3 amended: every failing `connect()` call logs one error line
keyed by host and re-raises the error, but the stored session handle
does not remain unset: the client object assigned at the top of the
`try` block stays stored (carrying the auto-add policy and whatever
transport state the underlying library's failed connect left on it —
an active one after a wrong-password failure, none when the failure
preceded the underlying connect). -/
theorem connect_failure_state (env : ConnectEnv) (self : SSHClient) (e : PyError)
    (h : (connect env self).error = some e) :
    (∃ c, (connect env self).state.client = some c ∧ c.auto_add_policy = true) ∧
    (connect env self).logs = [connectErrorLog self.host e] := by
  rcases connect_error_cases env self with h0 | ⟨e', c, he, hc, hpol, hl⟩
  · rw [h0] at h; exact Option.noConfusion h
  · obtain rfl : e' = e := Option.some.inj (he.symm.trans h)
    exact ⟨⟨c, hc, hpol⟩, hl⟩

/-- Witness for C3's amended theorem at the wrong-password scenario
with the transport state real paramiko leaves behind. -/
theorem connect_failure_state_witness :
    (∃ c, (connect ⟨.authErr, none, some { active := true }⟩
        (SSHClient.mk "h" "u" (some "p") none 22 none)).state.client = some c ∧
      c.auto_add_policy = true) ∧
    (connect ⟨.authErr, none, some { active := true }⟩
        (SSHClient.mk "h" "u" (some "p") none 22 none)).logs =
      [connectErrorLog "h" .authenticationException] :=
  connect_failure_state ⟨.authErr, none, some { active := true }⟩
    (SSHClient.mk "h" "u" (some "p") none 22 none) .authenticationException rfl

/-- C8: a `connect()` that opens a new session issues exactly the calls
the source issues: construct a client, install the auto-add (trust any
unknown host key) policy, and connect to host:port with a fixed
timeout of 10 — with the password when one is provided, else after
loading the private key from the configured path; every client object
it stores carries the auto-add policy. -/
theorem connect_new_session_parameters (env : ConnectEnv) (self : SSHClient)
    (hg : activeGuard self.client = false) :
    (pyTruthy self.password = true →
      (connect env self).calls =
        [.newSSHClient, .setMissingHostKeyPolicyAutoAdd,
         .connectWithPassword self.host self.user (self.password.getD "") self.port 10]) ∧
    (pyTruthy self.password = false → pyTruthy self.key_path = true → env.keyLoad = none →
      (connect env self).calls =
        [.newSSHClient, .setMissingHostKeyPolicyAutoAdd,
         .loadPrivateKey (self.key_path.getD ""),
         .connectWithKey self.host self.user (self.key_path.getD "") self.port 10]) ∧
    (∀ c, (connect env self).state.client = some c → c.auto_add_policy = true) := by
  refine ⟨?_, ?_, ?_⟩
  · intro hp
    unfold connect
    rw [hg, hp]
    cases env.pconnect <;> rfl
  · intro hp hk hkl
    unfold connect
    rw [hg, hp, hk, hkl]
    cases env.pconnect <;> rfl
  · intro c hc
    unfold connect at hc
    rw [hg] at hc
    revert hc
    repeat' split
    all_goals intro hc
    all_goals first
      | (simp at hc; subst hc; rfl)
      | simp_all

/-- Witness for C8 at a concrete password configuration and a concrete
key configuration. -/
theorem connect_new_session_parameters_witness :
    (connect ⟨.ok, none, none⟩ (SSHClient.mk "h" "u" (some "p") none 2222 none)).calls =
      [.newSSHClient, .setMissingHostKeyPolicyAutoAdd,
       .connectWithPassword "h" "u" "p" 2222 10] ∧
    (connect ⟨.ok, none, none⟩ (SSHClient.mk "h" "u" none (some "/k") 22 none)).calls =
      [.newSSHClient, .setMissingHostKeyPolicyAutoAdd,
       .loadPrivateKey "/k", .connectWithKey "h" "u" "/k" 22 10] :=
  ⟨(connect_new_session_parameters ⟨.ok, none, none⟩
      (SSHClient.mk "h" "u" (some "p") none 2222 none) rfl).1 rfl,
   (connect_new_session_parameters ⟨.ok, none, none⟩
      (SSHClient.mk "h" "u" none (some "/k") 22 none) rfl).2.1 rfl rfl rfl⟩

/-- C10: when both credentials are configured, `connect()` takes the
password branch: it never loads the private-key file (no key-load and
no key-connect call appears in the trace), and — when a new session is
actually opened — connects with the password. -/
theorem connect_password_precedence (env : ConnectEnv) (self : SSHClient)
    (hp : pyTruthy self.password = true) :
    (∀ p, ExtCall.loadPrivateKey p ∉ (connect env self).calls) ∧
    (∀ h u p port t, ExtCall.connectWithKey h u p port t ∉ (connect env self).calls) ∧
    (activeGuard self.client = false →
      ExtCall.connectWithPassword self.host self.user (self.password.getD "")
        self.port 10 ∈ (connect env self).calls) := by
  cases hg : activeGuard self.client with
  | true =>
    have hcalls : (connect env self).calls = [] := by
      unfold connect; rw [hg]; rfl
    refine ⟨fun p => by rw [hcalls]; simp, fun h u p port t => by rw [hcalls]; simp,
      fun hfalse => Bool.noConfusion hfalse⟩
  | false =>
    have hcalls : (connect env self).calls =
        [.newSSHClient, .setMissingHostKeyPolicyAutoAdd,
         .connectWithPassword self.host self.user (self.password.getD "") self.port 10] := by
      unfold connect
      rw [hg, hp]
      cases env.pconnect <;> rfl
    refine ⟨fun p => by rw [hcalls]; simp, fun h u p port t => by rw [hcalls]; simp,
      fun _ => by rw [hcalls]; simp⟩

/-- Witness for C10 with both credentials set and a failing
authentication: still no key-file access, and the password connect was
attempted. -/
theorem connect_password_precedence_witness :
    ExtCall.loadPrivateKey "/k" ∉
      (connect ⟨.authErr, none, none⟩ (SSHClient.mk "h" "u" (some "p") (some "/k") 22 none)).calls ∧
    ExtCall.connectWithPassword "h" "u" "p" 22 10 ∈
      (connect ⟨.authErr, none, none⟩ (SSHClient.mk "h" "u" (some "p") (some "/k") 22 none)).calls :=
  ⟨(connect_password_precedence ⟨.authErr, none, none⟩
      (SSHClient.mk "h" "u" (some "p") (some "/k") 22 none) rfl).1 "/k",
   (connect_password_precedence ⟨.authErr, none, none⟩
      (SSHClient.mk "h" "u" (some "p") (some "/k") 22 none) rfl).2.2 rfl⟩

/-- C6: an `execute_command` attempt whose remote command completes
returns the `(stdout, stderr, exit_code)` triple with both streams
stripped of surrounding whitespace, whatever the exit status: a
non-zero status produces a warning log line instead of an exception,
an exit status of zero an info line. -/
theorem execute_command_completed_triple (fuel : Nat) (env : Nat → CallEnv)
    (self : SSHClient) (command : String) (timeout : Nat)
    (rawOut rawErr : String) (code : Int)
    (hg : activeGuard self.client = true)
    (hexec : (env 0).exec = .completed rawOut rawErr code) :
    execute_command (fuel + 1) env self command timeout = some
      { state := self
        result := .ok (pyStrip rawOut, pyStrip rawErr, code)
        logs :=
          if code = 0 then
            [.info ("Command executed successfully on " ++ self.host ++ ": " ++ command)]
          else
            [.warning ("Command execution failed on " ++ self.host ++
              " with exit status " ++ toString code)]
        calls := [.pexec command timeout] } := by
  simp [execute_command, hg, hexec]

/-- Witness for C6: a command exiting with status 7 still returns its
stripped triple, and only a warning is logged. -/
theorem execute_command_completed_triple_witness :
    execute_command 1
      (fun _ => { implicitConnect := ⟨.ok, none, none⟩, exec := .completed "" "" 7,
                  closeErr := none, recoverConnect := ⟨.ok, none, none⟩ })
      (SSHClient.mk "h" "u" (some "p") none 22
        (some { transport := some { active := true }, auto_add_policy := true }))
      "exit 7" 30 = some
      { state := SSHClient.mk "h" "u" (some "p") none 22
          (some { transport := some { active := true }, auto_add_policy := true })
        result := .ok (pyStrip "", pyStrip "", 7)
        logs :=
          if (7 : Int) = 0 then
            [.info ("Command executed successfully on " ++ "h" ++ ": " ++ "exit 7")]
          else
            [.warning ("Command execution failed on " ++ "h" ++
              " with exit status " ++ toString (7 : Int))]
        calls := [.pexec "exit 7" 30] } :=
  execute_command_completed_triple 0
    (fun _ => { implicitConnect := ⟨.ok, none, none⟩, exec := .completed "" "" 7,
                closeErr := none, recoverConnect := ⟨.ok, none, none⟩ })
    (SSHClient.mk "h" "u" (some "p") none 22
      (some { transport := some { active := true }, auto_add_policy := true }))
    "exit 7" 30 "" "" 7 rfl rfl

/-- C7: on a handle with no active session, `execute_command` first
runs the implicit `connect()` — its external calls precede the single
`pexec` call in the trace — and then returns the well-formed stripped
triple. -/
theorem execute_command_implicit_connect (fuel : Nat) (env : Nat → CallEnv)
    (self : SSHClient) (command : String) (timeout : Nat)
    (rawOut rawErr : String) (code : Int)
    (hg : activeGuard self.client = false)
    (hc : (connect (env 0).implicitConnect self).error = none)
    (hexec : (env 0).exec = .completed rawOut rawErr code) :
    execute_command (fuel + 1) env self command timeout = some
      { state := (connect (env 0).implicitConnect self).state
        result := .ok (pyStrip rawOut, pyStrip rawErr, code)
        logs := (connect (env 0).implicitConnect self).logs ++
          (if code = 0 then
            [.info ("Command executed successfully on " ++
              (connect (env 0).implicitConnect self).state.host ++ ": " ++ command)]
          else
            [.warning ("Command execution failed on " ++
              (connect (env 0).implicitConnect self).state.host ++
              " with exit status " ++ toString code)])
        calls := (connect (env 0).implicitConnect self).calls ++ [.pexec command timeout] } := by
  simp [execute_command, hg, hc, hexec]

/-- Witness for C7 at a disconnected password-configured handle. -/
theorem execute_command_implicit_connect_witness :
    execute_command 1
      (fun _ => { implicitConnect := ⟨.ok, none, none⟩, exec := .completed " ok\n" "" 0,
                  closeErr := none, recoverConnect := ⟨.ok, none, none⟩ })
      (SSHClient.mk "h" "u" (some "p") none 22 none) "echo ok" 30 = some
      { state := (connect ⟨.ok, none, none⟩ (SSHClient.mk "h" "u" (some "p") none 22 none)).state
        result := .ok (pyStrip " ok\n", pyStrip "", 0)
        logs := (connect ⟨.ok, none, none⟩ (SSHClient.mk "h" "u" (some "p") none 22 none)).logs ++
          (if (0 : Int) = 0 then
            [.info ("Command executed successfully on " ++
              (connect ⟨.ok, none, none⟩ (SSHClient.mk "h" "u" (some "p") none 22 none)).state.host ++
              ": " ++ "echo ok")]
          else
            [.warning ("Command execution failed on " ++
              (connect ⟨.ok, none, none⟩ (SSHClient.mk "h" "u" (some "p") none 22 none)).state.host ++
              " with exit status " ++ toString (0 : Int))])
        calls := (connect ⟨.ok, none, none⟩ (SSHClient.mk "h" "u" (some "p") none 22 none)).calls ++
          [.pexec "echo ok" 30] } :=
  execute_command_implicit_connect 0
    (fun _ => { implicitConnect := ⟨.ok, none, none⟩, exec := .completed " ok\n" "" 0,
                closeErr := none, recoverConnect := ⟨.ok, none, none⟩ })
    (SSHClient.mk "h" "u" (some "p") none 22 none) "echo ok" 30 " ok\n" "" 0 rfl rfl rfl

theorem exec_persistent_failure_none :
    ∀ (fuel : Nat) (self : SSHClient) (command : String) (timeout : Nat),
      pyTruthy self.password = true →
      execute_command fuel persistentFailureEnv self command timeout = none := by
  intro fuel
  induction fuel with
  | zero => intro self command timeout _; rfl
  | succ n ih =>
    intro self command timeout hp
    have hrec : execute_command n persistentFailureEnv
        { self with client := some { transport := some { active := true }, auto_add_policy := true } }
        command timeout = none := ih _ command timeout hp
    have hA : activeGuard (({ self with client := none } : SSHClient)).client = false := rfl
    have hconn := connect_ok_password none none { self with client := none } hA hp
    have e1 : (persistentFailureEnv 0).exec = ExecOutcome.otherErr "Connection reset by peer" := rfl
    have e2 : (persistentFailureEnv 0).closeErr = none := rfl
    have e3 : (persistentFailureEnv 0).recoverConnect = ⟨.ok, none, none⟩ := rfl
    have e0 : (persistentFailureEnv 0).implicitConnect = ⟨.ok, none, none⟩ := rfl
    have e4 : (fun k => persistentFailureEnv (k + 1)) = persistentFailureEnv := rfl
    cases hg : activeGuard self.client with
    | true =>
      obtain ⟨c, hc⟩ : ∃ c, self.client = some c := by
        cases hcl : self.client with
        | none => rw [hcl] at hg; exact Bool.noConfusion hg
        | some c => exact ⟨c, rfl⟩
      have hg2 := hg
      rw [hc] at hg2
      simp [execute_command, hg, hg2, hc, close, e0, e1, e2, e3, e4, hconn, hrec]
    | false =>
      have hconn0 := connect_ok_password none none self hg hp
      simp [execute_command, hg, hconn0, close, e0, e1, e2, e3, e4, hconn, hrec]

/-- C1: `execute_command`'s failure handling. (1) When the attempt
raises a non-protocol exception and the recovery connect succeeds, the
call's outcome is exactly the outcome of re-running `execute_command`
from the state obtained by closing the current session and
reconnecting, with the same command and the same timeout — the
self-recursive retry. (2) A protocol-level (`SSHException`) error is
logged and re-raised with no retry: the single `pexec` is the whole
external-call trace, no close or reconnect happens. (3) The retry has
no count cap: under an environment in which every attempt fails with a
non-protocol error and every reconnect succeeds, no recursion depth
whatsoever produces a result — the recursion is unbounded. -/
theorem execute_command_retry_policy :
    (∀ (fuel : Nat) (env : Nat → CallEnv) (self : SSHClient)
        (command : String) (timeout : Nat) (m : String),
      activeGuard self.client = true →
      (env 0).exec = .otherErr m →
      (connect (env 0).recoverConnect (close (env 0).closeErr self).state).error = none →
      (execute_command (fuel + 1) env self command timeout).map ExecRes.result =
        (execute_command fuel (fun n => env (n + 1))
          (connect (env 0).recoverConnect (close (env 0).closeErr self).state).state
          command timeout).map ExecRes.result) ∧
    (∀ (fuel : Nat) (env : Nat → CallEnv) (self : SSHClient)
        (command : String) (timeout : Nat) (m : String),
      activeGuard self.client = true →
      (env 0).exec = .sshErr m →
      execute_command (fuel + 1) env self command timeout = some
        { state := self
          result := .error (.sshException m)
          logs := [.error ("SSH error while executing command on " ++ self.host ++ ": " ++ m)]
          calls := [.pexec command timeout] }) ∧
    (∀ (fuel : Nat) (self : SSHClient) (command : String) (timeout : Nat),
      pyTruthy self.password = true →
      execute_command fuel persistentFailureEnv self command timeout = none) := by
  refine ⟨?_, ?_, exec_persistent_failure_none⟩
  · intro fuel env self command timeout m hg hexec hrc
    cases hrec : execute_command fuel (fun n => env (n + 1))
        (connect (env 0).recoverConnect (close (env 0).closeErr self).state).state
        command timeout with
    | none => simp [execute_command, hg, hexec, hrc, hrec]
    | some r => simp [execute_command, hg, hexec, hrc, hrec]
  · intro fuel env self command timeout m hg hexec
    simp [execute_command, hg, hexec]

/-- Witness for C1: all three behaviors at the concrete connected
handle `("h","u",password "p")`. -/
theorem execute_command_retry_policy_witness :
    ((execute_command 2 persistentFailureEnv
        (SSHClient.mk "h" "u" (some "p") none 22
          (some { transport := some { active := true }, auto_add_policy := true }))
        "uptime" 30).map ExecRes.result =
      (execute_command 1 (fun n => persistentFailureEnv (n + 1))
        (connect (persistentFailureEnv 0).recoverConnect
          (close (persistentFailureEnv 0).closeErr
            (SSHClient.mk "h" "u" (some "p") none 22
              (some { transport := some { active := true }, auto_add_policy := true }))).state).state
        "uptime" 30).map ExecRes.result) ∧
    (execute_command 1
      (fun _ => { implicitConnect := ⟨.ok, none, none⟩, exec := .sshErr "kex failed",
                  closeErr := none, recoverConnect := ⟨.ok, none, none⟩ })
      (SSHClient.mk "h" "u" (some "p") none 22
        (some { transport := some { active := true }, auto_add_policy := true }))
      "uptime" 30 = some
      { state := SSHClient.mk "h" "u" (some "p") none 22
          (some { transport := some { active := true }, auto_add_policy := true })
        result := .error (.sshException "kex failed")
        logs := [.error ("SSH error while executing command on " ++ "h" ++ ": " ++ "kex failed")]
        calls := [.pexec "uptime" 30] }) ∧
    (execute_command 5 persistentFailureEnv
      (SSHClient.mk "h" "u" (some "p") none 22
        (some { transport := some { active := true }, auto_add_policy := true }))
      "uptime" 30 = none) := by
  obtain ⟨h1, h2, h3⟩ := execute_command_retry_policy
  exact ⟨h1 1 persistentFailureEnv
      (SSHClient.mk "h" "u" (some "p") none 22
        (some { transport := some { active := true }, auto_add_policy := true }))
      "uptime" 30 "Connection reset by peer" rfl rfl rfl,
    h2 0 (fun _ => { implicitConnect := ⟨.ok, none, none⟩, exec := .sshErr "kex failed",
                     closeErr := none, recoverConnect := ⟨.ok, none, none⟩ })
      (SSHClient.mk "h" "u" (some "p") none 22
        (some { transport := some { active := true }, auto_add_policy := true }))
      "uptime" 30 "kex failed" rfl rfl,
    h3 5 (SSHClient.mk "h" "u" (some "p") none 22
        (some { transport := some { active := true }, auto_add_policy := true }))
      "uptime" 30 rfl⟩

end SSHUtils
